import Mathlib

/-!
Shallow embedding of the two image-generation backends of the RedInk
repository: backend/generators/modelscope.py (ModelScopeGenerator, the
asynchronous submit-and-poll backend) and backend/generators/replicate_gen.py
(ReplicateGenerator, the synchronous direct-call backend).

External HTTP traffic and the clock are modelled as explicit oracles. A run
of ModelScopeGenerator.generate_image consumes a submission outcome, the
clock sample taken once after submission (the single call to time.time that
initialises start_time), and a list of polling-iteration outcomes. Each
polling iteration bundles the clock sample taken at the top of the loop, the
outcome of the status GET, and the behaviour of the output-URL GET. The run
produces the returned bytes or the escaping exception, together with
counters of status requests, download attempts and sleeps, where each
counted sleep is one call to time.sleep with the configured polling
interval. Machine-level details the code never inspects (header contents,
URL strings of the endpoints) are not represented.
-/

/-- Image bytes (the Python bytes value returned by generate_image),
modelled as a list of byte values. -/
abbrev Bytes := List Nat

/-- Truthiness of the optional api_key string: in Python both None and the
empty string are falsy, which is what the test in validate_config and the
conversion bool applied to api_key observe. -/
def pyTruthy : Option String → Bool
  | none => false
  | some s => !(s == "")

/-- The exceptions generate_image can raise, tagged by Python exception
class. requestException stands for any requests.exceptions.RequestException,
which covers both transport failures and the HTTPError raised by the method
raise_for_status of a response. -/
inductive GenError where
  | valueError (msg : String)
  | importError (msg : String)
  | requestException
  | keyError (key : String)
  | indexError
  | timeoutError (msg : String)
  | runtimeError (msg : String)
deriving DecidableEq

deriving instance DecidableEq for Except

/-- Parsed JSON body of a status response, restricted to the three fields
the code reads: task_status via data.get, output_images via bracket access,
and message via data.get with default. -/
structure PollData where
  task_status : Option String
  output_images : Option (List String)
  message : Option String
deriving DecidableEq

/-- Outcome of the status GET of one polling iteration: a transport failure
(requests.get raises), or a response carrying an HTTP status code and a
parsed JSON body. -/
inductive PollOutcome where
  | transportError
  | response (status : Nat) (data : PollData)
deriving DecidableEq

/-- Outcome of one plain HTTP GET of an image URL: a transport failure with
the exception text, or a response carrying a status code and body bytes. -/
inductive HttpGetResult where
  | transportError (msg : String)
  | response (status : Nat) (content : Bytes)
deriving DecidableEq

/-- Outcome of the submission POST: a transport failure, or a response
carrying an HTTP status code and the optional task_id field of its JSON
body. -/
inductive SubmitOutcome where
  | transportError
  | response (status : Nat) (task_id : Option String)
deriving DecidableEq

/-- Oracle for one iteration of the polling loop: the time.time sample taken
at the top of the loop body, the outcome of the status GET, and the
behaviour of the output-URL GET as a function of the URL fetched. -/
structure PollIter where
  now : Int
  poll : PollOutcome
  download : String → HttpGetResult

/-- The predicate deciding whether Response.raise_for_status raises: it
raises HTTPError exactly for 4xx and 5xx status codes. -/
def raisesForStatus (status : Nat) : Prop :=
  400 ≤ status ∧ status < 600

instance (status : Nat) : Decidable (raisesForStatus status) := by
  unfold raisesForStatus
  infer_instance

/-- Observable outcome of the polling loop: the result is none when the
supplied iteration trace is exhausted with the loop still running, otherwise
the returned bytes or the escaping exception; the counters record status
requests issued, download attempts issued, and sleeps performed. -/
structure LoopRun where
  result : Option (Except GenError Bytes)
  statusRequests : Nat
  downloadRequests : Nat
  sleeps : Nat
deriving DecidableEq

/-- The while-True polling loop of ModelScopeGenerator.generate_image. Each
iteration first compares the clock sample against start_time with the strict
test (now - start_time > timeout) and raises TimeoutError when it holds.
Otherwise it issues the status GET; a RequestException from the GET or from
raise_for_status is caught by the except clause, which sleeps one interval
and continues. On a parsed body: task_status equal to SUCCEED reads
output_images (KeyError escapes when the field is absent, IndexError when it
is empty, since neither is a RequestException) and issues the download GET,
whose RequestException is caught by the same except clause (sleep, continue)
while a passing raise_for_status returns the body bytes; task_status equal
to FAILED raises RuntimeError with the server message, escaping the except
clause; any other task_status sleeps one interval and continues. -/
def pollLoop (timeout startTime : Int) : List PollIter → LoopRun
  | [] => ⟨none, 0, 0, 0⟩
  | it :: rest =>
    if it.now - startTime > timeout then
      ⟨some (.error (.timeoutError
        ("Image generation timed out after " ++ toString timeout ++ " seconds"))), 0, 0, 0⟩
    else
      match it.poll with
      | .transportError =>
          let r := pollLoop timeout startTime rest
          ⟨r.result, r.statusRequests + 1, r.downloadRequests, r.sleeps + 1⟩
      | .response s data =>
          if raisesForStatus s then
            let r := pollLoop timeout startTime rest
            ⟨r.result, r.statusRequests + 1, r.downloadRequests, r.sleeps + 1⟩
          else if data.task_status = some "SUCCEED" then
            match data.output_images with
            | none => ⟨some (.error (.keyError "output_images")), 1, 0, 0⟩
            | some [] => ⟨some (.error .indexError), 1, 0, 0⟩
            | some (url :: _) =>
                match it.download url with
                | .transportError _ =>
                    let r := pollLoop timeout startTime rest
                    ⟨r.result, r.statusRequests + 1, r.downloadRequests + 1, r.sleeps + 1⟩
                | .response c content =>
                    if raisesForStatus c then
                      let r := pollLoop timeout startTime rest
                      ⟨r.result, r.statusRequests + 1, r.downloadRequests + 1, r.sleeps + 1⟩
                    else
                      ⟨some (.ok content), 1, 1, 0⟩
          else if data.task_status = some "FAILED" then
            ⟨some (.error (.runtimeError
              ("Image generation failed: " ++ data.message.getD "Unknown error"))), 1, 0, 0⟩
          else
            let r := pollLoop timeout startTime rest
            ⟨r.result, r.statusRequests + 1, r.downloadRequests, r.sleeps + 1⟩

/-- The submission step of ModelScopeGenerator.generate_image. A transport
failure, and the HTTPError raised by raise_for_status on a 4xx or 5xx code,
are RequestException values that the except clause logs and re-raises.
Reading task_id from the body by bracket access raises KeyError when the
field is absent; KeyError is not a RequestException, so it escapes the
except clause and propagates. -/
def submitStep : SubmitOutcome → Except GenError String
  | .transportError => .error .requestException
  | .response s tid =>
      if raisesForStatus s then .error .requestException
      else
        match tid with
        | none => .error (.keyError "task_id")
        | some t => .ok t

/-- The constant MAX_PROMPT_LENGTH of ModelScopeGenerator.generate_image. -/
def MAX_PROMPT_LENGTH : Nat := 1800

/-- The prompt placed in the submission payload: prompts longer than
MAX_PROMPT_LENGTH are sliced to their first MAX_PROMPT_LENGTH characters,
shorter prompts pass through unchanged. -/
def msPayloadPrompt (prompt : List Char) : List Char :=
  if prompt.length > MAX_PROMPT_LENGTH then prompt.take MAX_PROMPT_LENGTH else prompt

/-- Whether the truncation branch logs its warning: exactly when the prompt
is strictly longer than MAX_PROMPT_LENGTH. -/
def msPromptWarned (prompt : List Char) : Bool :=
  decide (prompt.length > MAX_PROMPT_LENGTH)

/-- ModelScopeGenerator.validate_config: raises ValueError when api_key is
falsy, returns True otherwise. -/
def ModelScopeGenerator.validate_config (apiKey : Option String) : Except GenError Bool :=
  if pyTruthy apiKey = false then .error (.valueError "ModelScope API Key is required")
  else .ok true

/-- The external world one call of ModelScopeGenerator.generate_image
interacts with: the submission outcome, the time.time sample taken once
right after submission (start_time), and the polling-iteration trace. -/
structure MSWorld where
  submit : SubmitOutcome
  startTime : Int
  iters : List PollIter

/-- Observable outcome of one call of ModelScopeGenerator.generate_image:
the result (none when the polling trace is exhausted with the loop still
running), the prompt placed in the submission payload (none when config
validation failed before the payload was built), whether the truncation
warning was logged, whether the submission POST was attempted, and the
counters of the polling phase. -/
structure GenRun where
  result : Option (Except GenError Bytes)
  payloadPrompt : Option (List Char)
  warned : Bool
  submitAttempted : Bool
  statusRequests : Nat
  downloadRequests : Nat
  sleeps : Nat
deriving DecidableEq

/-- ModelScopeGenerator.generate_image: validate_config first (its
ValueError propagates with nothing attempted), then prompt truncation and
payload construction, then the submission POST, then start_time is sampled
once and the polling loop runs. -/
def ModelScopeGenerator.generate_image (apiKey : Option String) (timeout : Int)
    (prompt : List Char) (w : MSWorld) : GenRun :=
  match ModelScopeGenerator.validate_config apiKey with
  | .error e => ⟨some (.error e), none, false, false, 0, 0, 0⟩
  | .ok _ =>
      match submitStep w.submit with
      | .error e =>
          ⟨some (.error e), some (msPayloadPrompt prompt), msPromptWarned prompt, true, 0, 0, 0⟩
      | .ok _ =>
          let r := pollLoop timeout w.startTime w.iters
          ⟨r.result, some (msPayloadPrompt prompt), msPromptWarned prompt, true,
            r.statusRequests, r.downloadRequests, r.sleeps⟩

/-- ReplicateGenerator.validate_config: returns bool applied to api_key and
never raises. -/
def ReplicateGenerator.validate_config (apiKey : Option String) : Except GenError Bool :=
  .ok (pyTruthy apiKey)

/-- The dictionary lookup of the private dimension helper of
ReplicateGenerator (named with a leading underscore in the source), with the
dict default (1024, 1024) for keys outside the table. -/
def ReplicateGenerator.get_dimensions (aspect_ratio : String) : Nat × Nat :=
  if aspect_ratio = "1:1" then (1024, 1024)
  else if aspect_ratio = "3:4" then (896, 1152)
  else if aspect_ratio = "4:3" then (1152, 896)
  else if aspect_ratio = "9:16" then (768, 1344)
  else if aspect_ratio = "16:9" then (1344, 768)
  else (1024, 1024)

/-- Remote output of one call of client.run: either an exception carrying a
message, or a value that is a single URL or a list of URLs. -/
inductive ReplicateOutput where
  | single (url : String)
  | list (urls : List String)
deriving DecidableEq

/-- The external world one call of ReplicateGenerator.generate_image
interacts with: whether the replicate package imported, the outcome of the
client.run call, and the behaviour of the image GET as a function of the
URL fetched. -/
structure RepWorld where
  replicateInstalled : Bool
  runOutput : Except String ReplicateOutput
  download : String → HttpGetResult

/-- Replace the client.run outcome of a world, keeping the rest. -/
def RepWorld.withRun (w : RepWorld) (o : Except String ReplicateOutput) : RepWorld :=
  ⟨w.replicateInstalled, o, w.download⟩

/-- The private download helper of ReplicateGenerator (named with a leading
underscore in the source): a 200 response returns its bytes; any other code
raises an Exception with text HTTP plus the code, which the enclosing except
clause of the same helper wraps; a transport failure is wrapped the same
way. Every failure leaves the helper as an Exception whose text starts with
the download-failure prefix. -/
def ReplicateGenerator.download_image (download : String → HttpGetResult) (url : String) :
    Except String Bytes :=
  match download url with
  | .response c content =>
      if c = 200 then .ok content
      else .error ("下载图片失败: " ++ ("HTTP " ++ toString c))
  | .transportError m => .error ("下载图片失败: " ++ m)

/-- Observable outcome of one call of ReplicateGenerator.generate_image:
the result, the width and height looked up from the aspect ratio and placed
in the input parameters (none when the import check failed first), the
prompt placed in the input parameters, and whether the client.run call was
reached. -/
structure RepRun where
  result : Except GenError Bytes
  dims : Option (Nat × Nat)
  inputPrompt : Option String
  remoteCalled : Bool
deriving DecidableEq

/-- ReplicateGenerator.generate_image: raises ImportError when the
replicate package is absent; otherwise resolves dimensions, calls
client.run, takes the first element when the output is a list (IndexError
on an empty list, whose Python text is the list-index message), downloads
the image, and wraps any exception of that try block in a RuntimeError
whose text is the generation-failure prefix followed by the original
message. It never calls validate_config and never inspects api_key. -/
def ReplicateGenerator.generate_image (apiKey : Option String) (prompt aspect_ratio : String)
    (w : RepWorld) : RepRun :=
  if w.replicateInstalled = false then
    ⟨.error (.importError "Replicate package not installed"), none, none, false⟩
  else
    let dims := ReplicateGenerator.get_dimensions aspect_ratio
    match w.runOutput with
    | .error m => ⟨.error (.runtimeError ("图片生成失败: " ++ m)), some dims, some prompt, true⟩
    | .ok out =>
        let firstUrl : Except String String :=
          match out with
          | .single url => .ok url
          | .list [] => .error "list index out of range"
          | .list (url :: _) => .ok url
        match firstUrl with
        | .error m => ⟨.error (.runtimeError ("图片生成失败: " ++ m)), some dims, some prompt, true⟩
        | .ok url =>
            match ReplicateGenerator.download_image w.download url with
            | .error m => ⟨.error (.runtimeError ("图片生成失败: " ++ m)), some dims, some prompt, true⟩
            | .ok content => ⟨.ok content, some dims, some prompt, true⟩

/-- Swap of a width-height pair, for the symmetry property of the dimension
table. -/
def swapDims (d : Nat × Nat) : Nat × Nat := (d.2, d.1)

/-- A polling iteration whose outcome keeps the loop going with exactly one
sleep: its clock sample is within the timeout budget, and its status GET
yields a transport error, an HTTP error status, or a body whose task_status
is neither SUCCEED nor FAILED (PENDING, unrecognized, or absent). The
branches mirror the loop body. -/
def transientIter (timeout startTime : Int) (it : PollIter) : Bool :=
  if it.now - startTime > timeout then false
  else
    match it.poll with
    | .transportError => true
    | .response s data =>
        if raisesForStatus s then true
        else if data.task_status = some "SUCCEED" then false
        else if data.task_status = some "FAILED" then false
        else true

/-- One transient iteration contributes exactly one status request and one
sleep and hands control to the rest of the trace. -/
theorem pollLoop_transient_cons (timeout startTime : Int) (it : PollIter)
    (rest : List PollIter) (h : transientIter timeout startTime it = true) :
    pollLoop timeout startTime (it :: rest) =
      ⟨(pollLoop timeout startTime rest).result,
       (pollLoop timeout startTime rest).statusRequests + 1,
       (pollLoop timeout startTime rest).downloadRequests,
       (pollLoop timeout startTime rest).sleeps + 1⟩ := by
  unfold transientIter at h
  by_cases hto : it.now - startTime > timeout
  · rw [if_pos hto] at h
    exact absurd h (by simp)
  · rw [if_neg hto] at h
    cases hp : it.poll with
    | transportError =>
        simp [pollLoop, if_neg hto, hp]
    | response s data =>
        rw [hp] at h
        by_cases hs : raisesForStatus s
        · simp [pollLoop, if_neg hto, hp, if_pos hs]
        · by_cases hsu : data.task_status = some "SUCCEED"
          · exfalso
            simp [hs, hsu] at h
          · by_cases hfa : data.task_status = some "FAILED"
            · exfalso
              simp [hs, hsu, hfa] at h
            · simp [pollLoop, if_neg hto, hp, if_neg hs, hsu, hfa]

/-- A prefix of transient iterations contributes one status request and one
sleep each and no download attempts, and the outcome of the loop is decided
by the rest of the trace. -/
theorem pollLoop_transient_prefix (timeout startTime : Int) (pre rest : List PollIter)
    (hpre : ∀ j ∈ pre, transientIter timeout startTime j = true) :
    pollLoop timeout startTime (pre ++ rest) =
      ⟨(pollLoop timeout startTime rest).result,
       (pollLoop timeout startTime rest).statusRequests + pre.length,
       (pollLoop timeout startTime rest).downloadRequests,
       (pollLoop timeout startTime rest).sleeps + pre.length⟩ := by
  induction pre with
  | nil => simp
  | cons j js ih =>
      have hj : transientIter timeout startTime j = true := hpre j (by simp)
      have hjs : ∀ x ∈ js, transientIter timeout startTime x = true :=
        fun x hx => hpre x (by simp [hx])
      rw [List.cons_append, pollLoop_transient_cons timeout startTime j (js ++ rest) hj,
        ih hjs]
      simp [Nat.add_assoc]

/-- With a truthy api_key and a submission that yields a task identifier,
generate_image is the polling loop together with the recorded payload. -/
theorem generate_image_run (apiKey : Option String) (timeout : Int) (prompt : List Char)
    (w : MSWorld) (tid : String) (hkey : pyTruthy apiKey = true)
    (hsub : submitStep w.submit = .ok tid) :
    ModelScopeGenerator.generate_image apiKey timeout prompt w =
      ⟨(pollLoop timeout w.startTime w.iters).result, some (msPayloadPrompt prompt),
       msPromptWarned prompt, true,
       (pollLoop timeout w.startTime w.iters).statusRequests,
       (pollLoop timeout w.startTime w.iters).downloadRequests,
       (pollLoop timeout w.startTime w.iters).sleeps⟩ := by
  unfold ModelScopeGenerator.generate_image ModelScopeGenerator.validate_config
  rw [hkey]
  simp [hsub]

/-- Demo image bytes used by concrete runs. -/
def demoBytes : Bytes := [137, 80, 78, 71]

/-- A submission response with a 200 code and a task identifier. -/
def okSubmit : SubmitOutcome := .response 200 (some "task-1")

/-- A status body reporting PENDING. -/
def pendData : PollData := ⟨some "PENDING", none, none⟩

/-- A status body reporting SUCCEED with one output URL. -/
def succData : PollData := ⟨some "SUCCEED", some ["http://x/y.png"], none⟩

/-- A status body reporting FAILED with the server message bad prompt. -/
def failData : PollData := ⟨some "FAILED", none, some "bad prompt"⟩

/-- A download oracle answering every URL with a 200 response carrying the
demo bytes. -/
def demoDownload : String → HttpGetResult := fun _ => .response 200 demoBytes

/-- A polling iteration observing PENDING early in the budget. -/
def pendIter : PollIter := ⟨1, .response 200 pendData, demoDownload⟩

/-- A polling iteration whose status GET fails with a transport error. -/
def errIter : PollIter := ⟨1, .transportError, demoDownload⟩

/-- A polling iteration observing SUCCEED with a working download. -/
def succIter : PollIter := ⟨1, .response 200 succData, demoDownload⟩

/-- A polling iteration observing FAILED. -/
def failIter : PollIter := ⟨1, .response 200 failData, demoDownload⟩

/-- A polling iteration whose clock sample lies beyond the timeout budget. -/
def lateIter : PollIter := ⟨100, .response 200 pendData, demoDownload⟩

/-- A polling iteration observing SUCCEED whose download GET fails with a
transport error. -/
def dlFailIter : PollIter := ⟨1, .response 200 succData, fun _ => .transportError "connection reset"⟩

/-- A world with a successful submission and an empty polling trace. -/
def demoMSWorld : MSWorld := ⟨okSubmit, 0, []⟩

/-- World for the download-failure counterexample: the first SUCCEED poll
has a failing download, the second SUCCEED poll downloads fine. -/
def c1World : MSWorld := ⟨okSubmit, 0, [dlFailIter, succIter]⟩

/-- World for the timeout witness: one transient iteration, then a clock
sample beyond the budget. -/
def c3World : MSWorld := ⟨okSubmit, 0, [errIter, lateIter]⟩

/-- World with the poll trace PENDING, PENDING, SUCCEED. -/
def c4WorldA : MSWorld := ⟨okSubmit, 0, [pendIter, pendIter, succIter]⟩

/-- World with two transport failures while polling, then SUCCEED. -/
def c4WorldB : MSWorld := ⟨okSubmit, 0, [errIter, errIter, succIter]⟩

/-- World whose submission returns a 200 response without a task_id. -/
def c5World : MSWorld := ⟨.response 200 none, 0, []⟩

/-- World whose single poll reports FAILED with message bad prompt. -/
def c6World : MSWorld := ⟨okSubmit, 0, [failIter]⟩

/-- Claim C3: elapsed time is measured against clock samples of the one
clock sampled once at submission (start_time); at the top of every polling
iteration, before the status GET of that iteration, the strict comparison
(now - start_time > timeout) is evaluated, and when it holds generate_image
raises TimeoutError, issuing no status request at that iteration or later,
regardless of any transient network errors at earlier iterations. -/
theorem modelscope_timeout_strict (apiKey : Option String) (timeout : Int)
    (prompt : List Char) (w : MSWorld) (tid : String) (pre : List PollIter)
    (it : PollIter) (rest : List PollIter)
    (hkey : pyTruthy apiKey = true) (hsub : submitStep w.submit = .ok tid)
    (hiters : w.iters = pre ++ it :: rest)
    (hpre : ∀ j ∈ pre, transientIter timeout w.startTime j = true)
    (hto : it.now - w.startTime > timeout) :
    ModelScopeGenerator.generate_image apiKey timeout prompt w =
      ⟨some (.error (.timeoutError
        ("Image generation timed out after " ++ toString timeout ++ " seconds"))),
       some (msPayloadPrompt prompt), msPromptWarned prompt, true,
       pre.length, 0, pre.length⟩ := by
  rw [generate_image_run apiKey timeout prompt w tid hkey hsub, hiters,
    pollLoop_transient_prefix timeout w.startTime pre (it :: rest) hpre]
  simp [pollLoop, if_pos hto]

/-- Witness for claim C3 at the concrete trace transport-error then a late
clock sample, with timeout 60 and start_time 0. -/
theorem modelscope_timeout_strict_witness :
    ModelScopeGenerator.generate_image (some "key") 60 ['p'] c3World =
      ⟨some (.error (.timeoutError
        ("Image generation timed out after " ++ toString (60 : Int) ++ " seconds"))),
       some ['p'], false, true, 1, 0, 1⟩ := by
  have h := modelscope_timeout_strict (some "key") 60 ['p'] c3World "task-1"
    [errIter] lateIter [] (by decide) (by decide) rfl (by decide) (by decide)
  exact h.trans (by decide)

/-- Claim C4: a finite sequence of non-terminal poll outcomes (PENDING,
unrecognized status, transport error, or an HTTP error status) followed by
a SUCCEED response carrying output_images sleeps exactly one polling
interval per non-terminal outcome, then downloads the first URL of
output_images once and returns its body bytes. -/
theorem modelscope_poll_success (apiKey : Option String) (timeout : Int)
    (prompt : List Char) (w : MSWorld) (tid : String) (pre : List PollIter)
    (it : PollIter) (rest : List PollIter) (s : Nat) (data : PollData)
    (url : String) (urls : List String) (c : Nat) (content : Bytes)
    (hkey : pyTruthy apiKey = true) (hsub : submitStep w.submit = .ok tid)
    (hiters : w.iters = pre ++ it :: rest)
    (hpre : ∀ j ∈ pre, transientIter timeout w.startTime j = true)
    (hnow : ¬ it.now - w.startTime > timeout)
    (hp : it.poll = .response s data) (hs : ¬ raisesForStatus s)
    (hst : data.task_status = some "SUCCEED")
    (him : data.output_images = some (url :: urls))
    (hd : it.download url = .response c content) (hc : ¬ raisesForStatus c) :
    ModelScopeGenerator.generate_image apiKey timeout prompt w =
      ⟨some (.ok content), some (msPayloadPrompt prompt), msPromptWarned prompt, true,
       pre.length + 1, 1, pre.length⟩ := by
  rw [generate_image_run apiKey timeout prompt w tid hkey hsub, hiters,
    pollLoop_transient_prefix timeout w.startTime pre (it :: rest) hpre]
  simp [pollLoop, if_neg hnow, hp, if_neg hs, hst, him, hd, if_neg hc, Nat.add_comm]

/-- Witness for claim C4 at the two traces of the spec: PENDING, PENDING,
SUCCEED, and transport failure twice then SUCCEED; both perform two sleeps
and return the bytes served at the URL of output_images. -/
theorem modelscope_poll_success_witness :
    ModelScopeGenerator.generate_image (some "key") 60 ['p'] c4WorldA =
      ⟨some (.ok demoBytes), some ['p'], false, true, 3, 1, 2⟩ ∧
    ModelScopeGenerator.generate_image (some "key") 60 ['p'] c4WorldB =
      ⟨some (.ok demoBytes), some ['p'], false, true, 3, 1, 2⟩ := by
  constructor
  · have h := modelscope_poll_success (some "key") 60 ['p'] c4WorldA "task-1"
      [pendIter, pendIter] succIter [] 200 succData "http://x/y.png" [] 200 demoBytes
      (by decide) (by decide) rfl (by decide) (by decide) rfl (by decide) rfl rfl rfl
      (by decide)
    exact h.trans (by decide)
  · have h := modelscope_poll_success (some "key") 60 ['p'] c4WorldB "task-1"
      [errIter, errIter] succIter [] 200 succData "http://x/y.png" [] 200 demoBytes
      (by decide) (by decide) rfl (by decide) (by decide) rfl (by decide) rfl rfl rfl
      (by decide)
    exact h.trans (by decide)

/-- Claim C5: a submission response whose raise_for_status passes but whose
body lacks the task_id field makes generate_image raise KeyError at once:
the polling loop is never entered, no status request, download or sleep
happens. -/
theorem modelscope_missing_task_id (apiKey : Option String) (timeout : Int)
    (prompt : List Char) (w : MSWorld) (s : Nat)
    (hkey : pyTruthy apiKey = true)
    (hsub : w.submit = .response s none) (hs : ¬ raisesForStatus s) :
    ModelScopeGenerator.generate_image apiKey timeout prompt w =
      ⟨some (.error (.keyError "task_id")), some (msPayloadPrompt prompt),
       msPromptWarned prompt, true, 0, 0, 0⟩ := by
  unfold ModelScopeGenerator.generate_image ModelScopeGenerator.validate_config
  rw [hkey]
  simp [hsub, submitStep, if_neg hs]

/-- Witness for claim C5 at a concrete 200 submission response without a
task_id. -/
theorem modelscope_missing_task_id_witness :
    ModelScopeGenerator.generate_image (some "key") 60 ['p'] c5World =
      ⟨some (.error (.keyError "task_id")), some ['p'], false, true, 0, 0, 0⟩ := by
  have h := modelscope_missing_task_id (some "key") 60 ['p'] c5World 200
    (by decide) rfl (by decide)
  exact h.trans (by decide)

/-- Claim C6: a poll response reporting FAILED with a server message makes
generate_image raise RuntimeError whose text is the generation-failure
prefix followed by that very message (so it contains the server message),
and the error terminates the loop at once: the except clause for transient
errors does not catch it, no sleep follows it and the rest of the trace is
never consulted. -/
theorem modelscope_task_failed_message (apiKey : Option String) (timeout : Int)
    (prompt : List Char) (w : MSWorld) (tid : String) (pre : List PollIter)
    (it : PollIter) (rest : List PollIter) (s : Nat) (data : PollData) (m : String)
    (hkey : pyTruthy apiKey = true) (hsub : submitStep w.submit = .ok tid)
    (hiters : w.iters = pre ++ it :: rest)
    (hpre : ∀ j ∈ pre, transientIter timeout w.startTime j = true)
    (hnow : ¬ it.now - w.startTime > timeout)
    (hp : it.poll = .response s data) (hs : ¬ raisesForStatus s)
    (hst : data.task_status = some "FAILED") (hm : data.message = some m) :
    ModelScopeGenerator.generate_image apiKey timeout prompt w =
      ⟨some (.error (.runtimeError ("Image generation failed: " ++ m))),
       some (msPayloadPrompt prompt), msPromptWarned prompt, true,
       pre.length + 1, 0, pre.length⟩ ∧
    ∃ a, "Image generation failed: " ++ m = a ++ m := by
  refine ⟨?_, "Image generation failed: ", rfl⟩
  rw [generate_image_run apiKey timeout prompt w tid hkey hsub, hiters,
    pollLoop_transient_prefix timeout w.startTime pre (it :: rest) hpre]
  simp [pollLoop, if_neg hnow, hp, if_neg hs, hst, hm, Nat.add_comm]

/-- Witness for claim C6 at a concrete FAILED response carrying the message
bad prompt. -/
theorem modelscope_task_failed_message_witness :
    ModelScopeGenerator.generate_image (some "key") 60 ['p'] c6World =
      ⟨some (.error (.runtimeError "Image generation failed: bad prompt")),
       some ['p'], false, true, 1, 0, 0⟩ ∧
    ∃ a, "Image generation failed: " ++ "bad prompt" = a ++ "bad prompt" := by
  have h := modelscope_task_failed_message (some "key") 60 ['p'] c6World "task-1"
    [] failIter [] 200 failData "bad prompt" (by decide) (by decide) rfl
    (by intro j hj; simp at hj) (by decide) rfl (by decide) rfl rfl
  exact ⟨h.1.trans (by decide), h.2⟩

/-- Counterexample to claim C1 as stated: in this concrete run the first
SUCCEED poll is followed by a download that fails with a transport error,
yet generate_image does not raise a download error; the failure is caught
by the transient-error handler, one sleep happens, polling is re-entered,
the download is retried at the next SUCCEED poll (two download attempts in
total) and the bytes of the retry are returned. -/
theorem modelscope_download_failure_not_fatal :
    ModelScopeGenerator.generate_image (some "key") 60 ['p'] c1World =
      ⟨some (.ok demoBytes), some ['p'], false, true, 2, 2, 1⟩ := by
  decide

/-- Claim C1 as amended: a transport failure or HTTP error status on the
GET of the output URL is a RequestException raised inside the try block of
the polling loop, so the except clause treats it like a transient polling
error: one sleep, then the loop is re-entered (and the download may be
retried on a later SUCCEED poll); such a failure is fatal only indirectly,
through the overall timeout. -/
theorem modelscope_download_failure_reenters_polling (timeout startTime : Int)
    (it : PollIter) (rest : List PollIter) (s : Nat) (data : PollData)
    (url : String) (urls : List String)
    (hnow : ¬ it.now - startTime > timeout)
    (hp : it.poll = .response s data) (hs : ¬ raisesForStatus s)
    (hst : data.task_status = some "SUCCEED")
    (him : data.output_images = some (url :: urls))
    (hfail : (∃ m, it.download url = .transportError m) ∨
      (∃ c content, it.download url = .response c content ∧ raisesForStatus c)) :
    pollLoop timeout startTime (it :: rest) =
      ⟨(pollLoop timeout startTime rest).result,
       (pollLoop timeout startTime rest).statusRequests + 1,
       (pollLoop timeout startTime rest).downloadRequests + 1,
       (pollLoop timeout startTime rest).sleeps + 1⟩ := by
  rcases hfail with ⟨m, hm⟩ | ⟨c, content, hc, hraise⟩
  · simp [pollLoop, if_neg hnow, hp, if_neg hs, hst, him, hm]
  · simp [pollLoop, if_neg hnow, hp, if_neg hs, hst, him, hc, if_pos hraise]

/-- Witness for the amended claim C1 at a concrete iteration whose SUCCEED
poll has a failing download, followed by a working SUCCEED iteration. -/
theorem modelscope_download_failure_reenters_polling_witness :
    pollLoop 60 0 [dlFailIter, succIter] =
      ⟨(pollLoop 60 0 [succIter]).result,
       (pollLoop 60 0 [succIter]).statusRequests + 1,
       (pollLoop 60 0 [succIter]).downloadRequests + 1,
       (pollLoop 60 0 [succIter]).sleeps + 1⟩ :=
  modelscope_download_failure_reenters_polling 60 0 dlFailIter [succIter] 200 succData
    "http://x/y.png" [] (by decide) rfl (by decide) rfl rfl
    (Or.inl ⟨"connection reset", rfl⟩)

/-- A Replicate world with the package installed, a successful remote call
returning a single URL, and a working download. -/
def repOkWorld : RepWorld := ⟨true, .ok (.single "http://img/1.png"), demoDownload⟩

/-- A Replicate world whose remote call raises with message boom. -/
def repErrWorld : RepWorld := ⟨true, .error "boom", demoDownload⟩

/-- Counterexample to claim C2 as stated: with api_key absent,
ReplicateGenerator.validate_config returns False instead of raising, and
ReplicateGenerator.generate_image performs the remote call and the download
and returns the image bytes without any credential check, so validate_config
is not invoked before network operations in this variant. -/
theorem replicate_validate_config_never_raises :
    ReplicateGenerator.validate_config none = .ok false ∧
    ReplicateGenerator.generate_image none "a prompt" "3:4" repOkWorld =
      ⟨.ok demoBytes, some (896, 1152), some "a prompt", true⟩ := by
  exact ⟨rfl, by decide⟩

/-- Claim C2 as amended: only the ModelScope variant behaves as claimed.
ModelScopeGenerator.validate_config raises ValueError when api_key is falsy
and generate_image calls it first, so nothing is submitted and no request
is issued; ReplicateGenerator.validate_config merely returns False without
raising, and ReplicateGenerator.generate_image reaches the remote call even
with api_key absent, never invoking validate_config. -/
theorem config_validation_per_variant (apiKey : Option String) (timeout : Int)
    (prompt : List Char) (w : MSWorld) (prompt2 aspect : String) (w2 : RepWorld)
    (hkey : pyTruthy apiKey = false) (hinst : w2.replicateInstalled = true) :
    ModelScopeGenerator.validate_config apiKey =
      .error (.valueError "ModelScope API Key is required") ∧
    ModelScopeGenerator.generate_image apiKey timeout prompt w =
      ⟨some (.error (.valueError "ModelScope API Key is required")),
       none, false, false, 0, 0, 0⟩ ∧
    ReplicateGenerator.validate_config apiKey = .ok false ∧
    (ReplicateGenerator.generate_image apiKey prompt2 aspect w2).remoteCalled = true := by
  refine ⟨?_, ?_, ?_, ?_⟩
  · unfold ModelScopeGenerator.validate_config
    rw [hkey]
    simp
  · unfold ModelScopeGenerator.generate_image ModelScopeGenerator.validate_config
    rw [hkey]
    simp
  · unfold ReplicateGenerator.validate_config
    rw [hkey]
  · unfold ReplicateGenerator.generate_image
    rw [hinst]
    cases ho : w2.runOutput with
    | error m => simp [ho]
    | ok out =>
        cases out with
        | single url =>
            simp only [ho]
            cases hd : ReplicateGenerator.download_image w2.download url <;> simp [hd]
        | list urls =>
            cases urls with
            | nil => simp [ho]
            | cons url us =>
                simp only [ho]
                cases hd : ReplicateGenerator.download_image w2.download url <;> simp [hd]

/-- Witness for the amended claim C2 with api_key equal to None on both
variants. -/
theorem config_validation_per_variant_witness :
    ModelScopeGenerator.validate_config none =
      .error (.valueError "ModelScope API Key is required") ∧
    ModelScopeGenerator.generate_image none 60 ['p'] demoMSWorld =
      ⟨some (.error (.valueError "ModelScope API Key is required")),
       none, false, false, 0, 0, 0⟩ ∧
    ReplicateGenerator.validate_config none = .ok false ∧
    (ReplicateGenerator.generate_image none "a prompt" "3:4" repOkWorld).remoteCalled =
      true :=
  config_validation_per_variant none 60 ['p'] demoMSWorld "a prompt" "3:4" repOkWorld
    rfl rfl

/-- Claim C7: prompts strictly longer than MAX_PROMPT_LENGTH are truncated
to exactly MAX_PROMPT_LENGTH characters in the submission payload with the
warning logged; prompts within the bound pass through unchanged with no
warning; and truncation raises nothing, since a run on the original prompt
returns exactly what the run on the truncated prompt returns. -/
theorem modelscope_prompt_truncation (prompt : List Char) (apiKey : Option String)
    (timeout : Int) (w : MSWorld) :
    (prompt.length > MAX_PROMPT_LENGTH →
      msPayloadPrompt prompt = prompt.take MAX_PROMPT_LENGTH ∧
      (msPayloadPrompt prompt).length = MAX_PROMPT_LENGTH ∧
      msPromptWarned prompt = true) ∧
    (prompt.length ≤ MAX_PROMPT_LENGTH →
      msPayloadPrompt prompt = prompt ∧ msPromptWarned prompt = false) ∧
    (ModelScopeGenerator.generate_image apiKey timeout prompt w).result =
      (ModelScopeGenerator.generate_image apiKey timeout (msPayloadPrompt prompt) w).result ∧
    (pyTruthy apiKey = true →
      (ModelScopeGenerator.generate_image apiKey timeout prompt w).payloadPrompt =
        some (msPayloadPrompt prompt) ∧
      (ModelScopeGenerator.generate_image apiKey timeout prompt w).warned =
        msPromptWarned prompt) := by
  refine ⟨?_, ?_, ?_, ?_⟩
  · intro h
    unfold msPayloadPrompt
    rw [if_pos h]
    refine ⟨rfl, ?_, ?_⟩
    · rw [List.length_take]
      exact Nat.min_eq_left h.le
    · simp [msPromptWarned, h]
  · intro h
    unfold msPayloadPrompt msPromptWarned
    rw [if_neg (by omega)]
    exact ⟨rfl, by simp; omega⟩
  · cases h1 : ModelScopeGenerator.validate_config apiKey with
    | error e => simp [ModelScopeGenerator.generate_image, h1]
    | ok b =>
        cases h2 : submitStep w.submit with
        | error e => simp [ModelScopeGenerator.generate_image, h1, h2]
        | ok t => simp [ModelScopeGenerator.generate_image, h1, h2]
  · intro hk
    unfold ModelScopeGenerator.generate_image ModelScopeGenerator.validate_config
    rw [hk]
    cases h2 : submitStep w.submit <;> simp [h2]

/-- A prompt of 1801 identical characters, one beyond the limit. -/
def longPrompt : List Char := List.replicate 1801 'a'

/-- Witness for claim C7: the 1801-character prompt is truncated to exactly
1800 characters with the warning set, and a 1-character prompt passes
unchanged without warning. -/
theorem modelscope_prompt_truncation_witness :
    (longPrompt.length > MAX_PROMPT_LENGTH ∧
      (msPayloadPrompt longPrompt).length = MAX_PROMPT_LENGTH ∧
      msPromptWarned longPrompt = true) ∧
    (msPayloadPrompt ['p'] = ['p'] ∧ msPromptWarned ['p'] = false) := by
  have h1 := modelscope_prompt_truncation longPrompt none 60 demoMSWorld
  have h2 := modelscope_prompt_truncation ['p'] none 60 demoMSWorld
  have hl : longPrompt.length > MAX_PROMPT_LENGTH := by
    show (List.replicate 1801 'a').length > MAX_PROMPT_LENGTH
    rw [List.length_replicate]
    decide
  exact ⟨⟨hl, (h1.1 hl).2.1, (h1.1 hl).2.2⟩,
    h2.2.1 (by simp [MAX_PROMPT_LENGTH])⟩

/-- Claim C8: every aspect-ratio string outside the five-key table maps to
the default (1024, 1024) rather than failing, and every key of the table
maps to its fixed pair. -/
theorem replicate_dimension_lookup (ratio : String) :
    (ratio ∉ (["1:1", "3:4", "4:3", "9:16", "16:9"] : List String) →
      ReplicateGenerator.get_dimensions ratio = (1024, 1024)) ∧
    ReplicateGenerator.get_dimensions "1:1" = (1024, 1024) ∧
    ReplicateGenerator.get_dimensions "3:4" = (896, 1152) ∧
    ReplicateGenerator.get_dimensions "4:3" = (1152, 896) ∧
    ReplicateGenerator.get_dimensions "9:16" = (768, 1344) ∧
    ReplicateGenerator.get_dimensions "16:9" = (1344, 768) := by
  refine ⟨?_, by decide, by decide, by decide, by decide, by decide⟩
  intro h
  simp only [List.mem_cons, List.not_mem_nil, or_false, not_or] at h
  obtain ⟨h1, h2, h3, h4, h5⟩ := h
  simp [ReplicateGenerator.get_dimensions, h1, h2, h3, h4, h5]

/-- Witness for claim C8 at the unknown ratio 2:3. -/
theorem replicate_dimension_lookup_witness :
    ("2:3" ∉ (["1:1", "3:4", "4:3", "9:16", "16:9"] : List String)) ∧
    ReplicateGenerator.get_dimensions "2:3" = (1024, 1024) := by
  have h := replicate_dimension_lookup "2:3"
  exact ⟨by decide, h.1 (by decide)⟩

/-- Claim C9: with the replicate package present, any exception of the
remote call or of the download is wrapped into a RuntimeError whose text is
the generation-failure prefix followed by the original message (so it
contains the original message), and a list output is treated by taking its
first element, exactly as the same single URL would be. -/
theorem replicate_error_wrapping (apiKey : Option String) (prompt ratio : String)
    (w : RepWorld) (hinst : w.replicateInstalled = true) :
    (∀ m, w.runOutput = .error m →
      (ReplicateGenerator.generate_image apiKey prompt ratio w).result =
        .error (.runtimeError ("图片生成失败: " ++ m))) ∧
    (∀ url urls, w.runOutput = .ok (.list (url :: urls)) →
      ReplicateGenerator.generate_image apiKey prompt ratio w =
        ReplicateGenerator.generate_image apiKey prompt ratio
          (w.withRun (.ok (.single url)))) ∧
    (∀ url m, w.runOutput = .ok (.single url) → w.download url = .transportError m →
      (ReplicateGenerator.generate_image apiKey prompt ratio w).result =
        .error (.runtimeError ("图片生成失败: " ++ ("下载图片失败: " ++ m)))) ∧
    (∀ url c content, w.runOutput = .ok (.single url) →
      w.download url = .response c content → c ≠ 200 →
      (ReplicateGenerator.generate_image apiKey prompt ratio w).result =
        .error (.runtimeError
          ("图片生成失败: " ++ ("下载图片失败: " ++ ("HTTP " ++ toString c))))) := by
  refine ⟨?_, ?_, ?_, ?_⟩
  · intro m hm
    simp [ReplicateGenerator.generate_image, hinst, hm]
  · intro url urls hm
    simp [ReplicateGenerator.generate_image, RepWorld.withRun, hinst, hm]
  · intro url m hm hd
    simp [ReplicateGenerator.generate_image, ReplicateGenerator.download_image,
      hinst, hm, hd]
  · intro url c content hm hd hc
    simp [ReplicateGenerator.generate_image, ReplicateGenerator.download_image,
      hinst, hm, hd, hc]

/-- Witness for claim C9: a remote call raising with message boom is
wrapped into the generation-failure RuntimeError carrying boom. -/
theorem replicate_error_wrapping_witness :
    (ReplicateGenerator.generate_image (some "key") "a prompt" "1:1" repErrWorld).result =
      .error (.runtimeError ("图片生成失败: " ++ "boom")) := by
  have h := replicate_error_wrapping (some "key") "a prompt" "1:1" repErrWorld rfl
  exact h.1 "boom" rfl

/-- Claim C10: the dimension mapping is a total function (it is defined for
every string and never fails) whose table is swap-symmetric: the reciprocal
ratios 3:4 and 4:3, and 9:16 and 16:9, map to mutually swapped pairs, while
1:1 and every string outside the table map to the swap fixed point
(1024, 1024). -/
theorem replicate_dimensions_swap_symmetric (ratio : String) :
    swapDims (ReplicateGenerator.get_dimensions "3:4") =
      ReplicateGenerator.get_dimensions "4:3" ∧
    swapDims (ReplicateGenerator.get_dimensions "4:3") =
      ReplicateGenerator.get_dimensions "3:4" ∧
    swapDims (ReplicateGenerator.get_dimensions "9:16") =
      ReplicateGenerator.get_dimensions "16:9" ∧
    swapDims (ReplicateGenerator.get_dimensions "16:9") =
      ReplicateGenerator.get_dimensions "9:16" ∧
    swapDims (ReplicateGenerator.get_dimensions "1:1") =
      ReplicateGenerator.get_dimensions "1:1" ∧
    (ratio ∉ (["1:1", "3:4", "4:3", "9:16", "16:9"] : List String) →
      swapDims (ReplicateGenerator.get_dimensions ratio) =
        ReplicateGenerator.get_dimensions ratio) := by
  refine ⟨by decide, by decide, by decide, by decide, by decide, ?_⟩
  intro h
  simp only [List.mem_cons, List.not_mem_nil, or_false, not_or] at h
  obtain ⟨h1, h2, h3, h4, h5⟩ := h
  simp [ReplicateGenerator.get_dimensions, swapDims, h1, h2, h3, h4, h5]

/-- Witness for claim C10 at the unknown ratio 7:5, a fixed point of the
swap. -/
theorem replicate_dimensions_swap_symmetric_witness :
    ("7:5" ∉ (["1:1", "3:4", "4:3", "9:16", "16:9"] : List String)) ∧
    swapDims (ReplicateGenerator.get_dimensions "7:5") =
      ReplicateGenerator.get_dimensions "7:5" := by
  have h := replicate_dimensions_swap_symmetric "7:5"
  exact ⟨by decide, h.2.2.2.2.2 (by decide)⟩
